import Mathlib

/-!
Verification of the Tibb 1.0 pharmacology chat application (src/main.py):
a shallow embedding of its retrieval-augmented prompt-assembly pipeline,
its chat-history session state, its startup API-key checks and its
user-facing widgets, followed by theorems settling the specified
properties of each part.
-/

namespace Tibb

/-- A chat-history entry as stored in st.session_state.chat_history
(src/main.py lines 144-147, 159, 166): a dict with a role field and a
content field. -/
structure Message where
  role : String
  content : String
  deriving DecidableEq

/-- A chat message of the prompt assembled by the ChatPromptTemplate of
src/main.py lines 94-100: a system, human (user) or AI message. -/
inductive ChatMsg where
  | system : String → ChatMsg
  | human : String → ChatMsg
  | ai : String → ChatMsg
  deriving DecidableEq

/-- The initial chat history (src/main.py lines 144-147): the single
fixed greeting message, with role assistant. -/
def initial_chat_history : List Message :=
  [⟨"assistant", "Hello Impeccabillem Warrior, I\x27m your CoMUI Pharmacology MB2 Assistant. How can I assist you today?"⟩]

/-- The part of the system prompt template (src/main.py lines 37-43)
before the doc_content placeholder. -/
def system_prompt_head : String :=
  "\nYour name is CoMUI MB-2 Pharmacology Chatbot. You are a Professor specializing in Pharmacology in CoMUI. Answer questions very very elaborately and accurately. Use the following information to answer the user\x27s question:\n\n"

/-- The part of the system prompt template (src/main.py lines 37-43)
after the doc_content placeholder. -/
def system_prompt_tail : String :=
  "\n\nProvide very brief accurate and helpful health response based on the provided information and your expertise.\n"

/-- system_prompt_template.format(doc_content=...) of src/main.py line 76:
the template has the single placeholder doc_content and no other brace,
so Python str.format splices the argument verbatim between the fixed head
and tail. -/
def format_system_prompt (doc_content : String) : String :=
  system_prompt_head ++ doc_content ++ system_prompt_tail

/-- Python str.replace for a single-character needle, on the character
list of the string: every occurrence of c is replaced by r. -/
def replace_char (c : Char) (r : List Char) : List Char → List Char
  | [] => []
  | x :: xs => (if x = c then r else [x]) ++ replace_char c r xs

/-- The opening curly brace character. -/
def lbrace : Char := '\x7b'

/-- The closing curly brace character. -/
def rbrace : Char := '\x7d'

/-- The escaping step of src/main.py line 73: first every opening brace
is replaced by two opening braces, then every closing brace by two
closing braces, exactly as the two chained str.replace calls do. -/
def escape_braces (l : List Char) : List Char :=
  replace_char rbrace [rbrace, rbrace] (replace_char lbrace [lbrace, lbrace] l)

/-- The per-character effect of the escaping step: an opening brace
becomes a doubled opening brace, a closing brace a doubled closing
brace, and every other character is unchanged. -/
def esc_char (c : Char) : List Char :=
  if c = lbrace then [lbrace, lbrace]
  else if c = rbrace then [rbrace, rbrace]
  else [c]

/-- Text extraction from one vector-store match (src/main.py line 68):
the metadata map, modelled as an association list, is read at the key
text, a missing field yielding the empty string. -/
def get_text (metadata : List (String × String)) : String :=
  (metadata.lookup "text").getD ""

/-- The extraction loop of src/main.py lines 64-71: one entry per match
of the vector-store response, in order. -/
def extract_doc_contents (match_list : List (List (String × String))) : List String :=
  match_list.map get_text

/-- The literal placeholder substituted when no document was retrieved
(src/main.py line 73). -/
def no_info_placeholder : String := "No additional information found."

/-- src/main.py line 73: when at least one document content was
collected, join the contents with newlines and escape braces; otherwise
the literal placeholder. -/
def doc_content_of (doc_contents : List String) : String :=
  if doc_contents.isEmpty then no_info_placeholder
  else String.mk (escape_braces (String.intercalate "\n" doc_contents).data)

/-- src/main.py lines 79-84: the chat history rebuilt from session
state; an entry with role user becomes a human message, one with role
assistant an AI message, and any other role is skipped by the if/elif. -/
def rebuild_chat_history (hist : List Message) : List ChatMsg :=
  hist.filterMap fun m =>
    if m.role = "user" then some (ChatMsg.human m.content)
    else if m.role = "assistant" then some (ChatMsg.ai m.content)
    else none

/-- The role-preserving translation of a valid history entry into the
prompt message the rebuild step produces for it. -/
def msg_to_chat (m : Message) : ChatMsg :=
  if m.role = "user" then ChatMsg.human m.content else ChatMsg.ai m.content

/-- The message sequence produced by the ChatPromptTemplate of
src/main.py lines 94-100 when the chain is invoked: the formatted system
prompt, then the placeholder filled with the rebuilt history, then the
question as the final human message. -/
def messages_of (system_prompt : String) (hist : List Message) (question : String) : List ChatMsg :=
  ChatMsg.system system_prompt :: rebuild_chat_history hist ++ [ChatMsg.human question]

/-- The parameters of the pinecone_index.query call (src/main.py lines
56-61). -/
structure PineconeQuery where
  top_k : Nat
  include_values : Bool
  include_metadata : Bool
  deriving DecidableEq

/-- The observable effect of one generate_response run: the vector-store
query it issues and the prompt messages it sends to the generation
API. -/
structure GenerateCall where
  query : PineconeQuery
  prompt_messages : List ChatMsg
  deriving DecidableEq

/-- generate_response (src/main.py lines 45-120) as a function of the
question, the session chat history it reads, and the vector-store
response (the list of metadata maps of the matches): the query
parameters of lines 56-61 and the prompt messages of lines 94-100. -/
def generate_response_call (question : String) (hist : List Message)
    (match_list : List (List (String × String))) : GenerateCall :=
  { query := { top_k := 5, include_values := false, include_metadata := true }
    prompt_messages :=
      messages_of (format_system_prompt (doc_content_of (extract_doc_contents match_list))) hist question }

/-- The user-input handler (src/main.py lines 156-166) as a function of
the prior history, the submitted input, and the outcome of the
generate_response call: ok with the response text, or error when the
call raises. The handler wraps the call in no try/except, so an
exception escapes the script run: the second component of the result is
the escaped exception, none when the run completes normally. The user
entry is appended (line 159) before the call (line 162); the assistant
entry is appended (line 166) only after a normal return. -/
def handle_user_input (hist : List Message) (input : String)
    (genOutcome : Except String String) : List Message × Option String :=
  let hist1 := hist ++ [⟨"user", input⟩]
  match genOutcome with
  | Except.ok resp => (hist1 ++ [⟨"assistant", resp⟩], none)
  | Except.error e => (hist1, some e)

/-- A session of successful turns: starting from the initial history,
each turn submits a question and the generate_response call returns the
paired response text. -/
def run_session (turns : List (String × String)) : List Message :=
  turns.foldl (fun h t => (handle_user_input h t.1 (Except.ok t.2)).1) initial_chat_history

/-- The prompt messages assembled for one submission: the handler
appends the user entry (src/main.py line 159) before generate_response
reads the session history (line 80), so the assembler sees the history
with the new question already appended. -/
def handler_prompt_messages (hist : List Message) (input : String)
    (match_list : List (List (String × String))) : List ChatMsg :=
  (generate_response_call input (hist ++ [⟨"user", input⟩]) match_list).prompt_messages

/-- The session state the script keeps: chat_history (src/main.py line
144) and the dark_mode flag (line 173). -/
structure AppState where
  chat_history : List Message
  dark_mode : Bool
  deriving DecidableEq

/-- generate_response over the whole session state: it reads
s.chat_history (src/main.py line 80) and performs the external calls,
but contains no assignment to st.session_state or to any other local
state, so the state component of its result is its input state.
llm_text is the externally produced generation result returned at line
120. -/
def generate_response_app (s : AppState) (question : String)
    (match_list : List (List (String × String))) (llm_text : String) :
    AppState × GenerateCall × String :=
  (s, generate_response_call question s.chat_history match_list, llm_text)

/-- The user-input handler over the session state (src/main.py lines
156-166): append the user entry, invoke generate_response on the
updated state, then append the assistant entry on normal return, or let
the exception escape. -/
def handle_user_input_app (s : AppState) (input : String)
    (match_list : List (List (String × String)))
    (genOutcome : Except String String) : AppState × Option String :=
  let s1 : AppState := { s with chat_history := s.chat_history ++ [⟨"user", input⟩] }
  match genOutcome with
  | Except.ok resp =>
      let s2 := (generate_response_app s1 input match_list resp).1
      ({ s2 with chat_history := s2.chat_history ++ [⟨"assistant", resp⟩] }, none)
  | Except.error e => (s1, some e)

/-- Python truthiness of an optional string: None and the empty string
are falsy, every other string is truthy. -/
def py_truthy : Option String → Bool
  | none => false
  | some s => !s.isEmpty

/-- The startup key checks (src/main.py lines 20-29): both keys are read
from the process environment; a falsy key stops the script with the
corresponding visible error before anything below runs, and only when
both are present does startup succeed with the two keys. -/
def startup (env : String → Option String) : Except String (String × String) :=
  if !py_truthy (env "PINECONE_API_KEY") then
    Except.error "Pinecone API key is missing. Please set it in your .env file."
  else if !py_truthy (env "GOOGLE_API_KEY") then
    Except.error "Google API key is missing. Please set it in your .env file."
  else
    Except.ok ((env "PINECONE_API_KEY").getD "", (env "GOOGLE_API_KEY").getD "")

/-- An interactive widget created by the script. -/
inductive Widget where
  | chatInput : String → Widget
  | button : String → Widget
  deriving DecidableEq

/-- The interactive widgets the script actually creates: the single chat
input of src/main.py line 155. The only st.button call in the file (the
theme toggle around line 474) is commented out, and no other interactive
widget is created. -/
def app_widgets : List Widget :=
  [Widget.chatInput "💬 Ask your Pharmacology questions and let\x27s see how I can help..."]

/-- Whether any created widget is a button, the only widget kind a reset
action could be wired to in this script. -/
def has_reset_action : Bool :=
  app_widgets.any fun w => match w with
    | Widget.button _ => true
    | _ => false

/-- The items of the How-to-Use instruction list rendered in the sidebar
(src/main.py lines 493-503), with the surrounding markup and whitespace
of the HTML block elided. -/
def sidebar_instructions : String :=
  "<li>Type your pharmacology question in the input box below</li><li>Press Enter or click the send button</li><li>Tibb 1.0 will provide a detailed response based on its knowledge base</li><li>Use the \x27Clear Chat\x27 button to reset the conversation</li>"

/-- Every curly brace in the list occurs as an immediately doubled pair,
so no brace is an unescaped occurrence in the sense of the template
language. -/
def braces_doubled : List Char → Bool
  | [] => true
  | [x] => if x = lbrace ∨ x = rbrace then false else true
  | x :: y :: ys =>
    if x = lbrace ∨ x = rbrace then
      if y = x then braces_doubled ys else false
    else braces_doubled (y :: ys)

/-- The list contains no curly brace at all. -/
def no_braces (l : List Char) : Bool :=
  l.all fun c => if c = lbrace ∨ c = rbrace then false else true

lemma replace_char_append (c : Char) (r : List Char) (a b : List Char) :
    replace_char c r (a ++ b) = replace_char c r a ++ replace_char c r b := by
  induction a with
  | nil => rfl
  | cons x xs ih => simp [replace_char, ih]

lemma escape_braces_cons (x : Char) (xs : List Char) :
    escape_braces (x :: xs) = esc_char x ++ escape_braces xs := by
  show replace_char rbrace [rbrace, rbrace]
      ((if x = lbrace then [lbrace, lbrace] else [x]) ++ replace_char lbrace [lbrace, lbrace] xs) = _
  rw [replace_char_append]
  have hhead : replace_char rbrace [rbrace, rbrace]
      (if x = lbrace then [lbrace, lbrace] else [x]) = esc_char x := by
    by_cases h1 : x = lbrace
    · subst h1; rfl
    · by_cases h2 : x = rbrace
      · subst h2; rfl
      · simp [replace_char, esc_char, h1, h2]
  rw [hhead]
  rfl

lemma braces_doubled_cons_of_ne (x : Char) (l : List Char)
    (h1 : x ≠ lbrace) (h2 : x ≠ rbrace) :
    braces_doubled (x :: l) = braces_doubled l := by
  cases l with
  | nil => simp [braces_doubled, h1, h2]
  | cons y ys => simp [braces_doubled, h1, h2]

lemma braces_doubled_double (x : Char) (l : List Char) (hx : x = lbrace ∨ x = rbrace) :
    braces_doubled (x :: x :: l) = braces_doubled l := by
  simp [braces_doubled, hx]

lemma braces_doubled_escape_append (l t : List Char) (ht : braces_doubled t = true) :
    braces_doubled (escape_braces l ++ t) = true := by
  induction l with
  | nil => simpa [escape_braces, replace_char] using ht
  | cons x xs ih =>
    rw [escape_braces_cons, List.append_assoc]
    by_cases h1 : x = lbrace
    · subst h1
      rw [show esc_char lbrace = [lbrace, lbrace] from rfl]
      rw [List.cons_append, List.cons_append, List.nil_append]
      rw [braces_doubled_double lbrace _ (Or.inl rfl)]
      exact ih
    · by_cases h2 : x = rbrace
      · subst h2
        rw [show esc_char rbrace = [rbrace, rbrace] from rfl]
        rw [List.cons_append, List.cons_append, List.nil_append]
        rw [braces_doubled_double rbrace _ (Or.inr rfl)]
        exact ih
      · rw [show esc_char x = [x] from by simp [esc_char, h1, h2]]
        rw [List.cons_append, List.nil_append]
        rw [braces_doubled_cons_of_ne x _ h1 h2]
        exact ih

lemma braces_doubled_escape (l : List Char) : braces_doubled (escape_braces l) = true := by
  simpa using braces_doubled_escape_append l [] rfl

lemma braces_doubled_append_of_no_braces (a b : List Char) (ha : no_braces a = true) :
    braces_doubled (a ++ b) = braces_doubled b := by
  induction a with
  | nil => rfl
  | cons x xs ih =>
    rw [no_braces, List.all_cons, Bool.and_eq_true] at ha
    have hx : ¬(x = lbrace ∨ x = rbrace) := by
      intro h
      simp [h] at ha
    rw [List.cons_append,
      braces_doubled_cons_of_ne x _ (fun h => hx (Or.inl h)) (fun h => hx (Or.inr h))]
    exact ih ha.2

lemma escape_braces_eq_flatMap (l : List Char) :
    escape_braces l = l.flatMap esc_char := by
  induction l with
  | nil => rfl
  | cons x xs ih => rw [escape_braces_cons, ih, List.flatMap_cons]

lemma rebuild_chat_history_eq_map (hist : List Message)
    (h : ∀ m ∈ hist, m.role = "user" ∨ m.role = "assistant") :
    rebuild_chat_history hist = hist.map msg_to_chat := by
  induction hist with
  | nil => rfl
  | cons m t ih =>
    have hm := h m (List.mem_cons_self m t)
    have ht := ih fun x hx => h x (List.mem_cons_of_mem m hx)
    rcases hm with hu | ha
    · simp [rebuild_chat_history, List.filterMap_cons, msg_to_chat, hu] at ht ⊢
      exact ht
    · have hne : ("assistant" : String) ≠ "user" := by decide
      simp [rebuild_chat_history, List.filterMap_cons, msg_to_chat, ha, hne] at ht ⊢
      exact ht

/-- C1 counterexample: on a generation failure the handler does not
append any assistant entry; the exception escapes uncaught, the roles of
the resulting history are the greeting followed by the unpaired user
entry, and the history equals no extension of the user entry by an
assistant reply. -/
theorem exception_leaves_unpaired_user_entry :
    (handle_user_input initial_chat_history "What is paracetamol?" (Except.error "API failure")).2
        = some "API failure"
    ∧ List.map Message.role
        (handle_user_input initial_chat_history "What is paracetamol?" (Except.error "API failure")).1
        = ["assistant", "user"]
    ∧ ¬ ∃ r : String,
        (handle_user_input initial_chat_history "What is paracetamol?" (Except.error "API failure")).1
          = initial_chat_history ++ [⟨"user", "What is paracetamol?"⟩, ⟨"assistant", r⟩] := by
  refine ⟨rfl, rfl, ?_⟩
  rintro ⟨r, hr⟩
  have hlen := congrArg List.length hr
  simp [handle_user_input, initial_chat_history] at hlen

/-- C1 (amended): an exception raised during response generation is not
caught anywhere; it propagates out of the submission handler, the user
entry appended before the call remains unchanged as the last history
entry, and no assistant entry is appended for it. -/
theorem exception_escapes_uncaught (hist : List Message) (input e : String) :
    handle_user_input hist input (Except.error e) = (hist ++ [⟨"user", input⟩], some e) := rfl

/-- C5: for every question, session history and vector-store response,
the pinecone query of generate_response is issued with top_k exactly 5
(values excluded, metadata included); no call-time parameter affects
it. -/
theorem query_top_k_is_five (question : String) (hist : List Message)
    (match_list : List (List (String × String))) :
    (generate_response_call question hist match_list).query
      = { top_k := 5, include_values := false, include_metadata := true } := rfl

/-- C2: the escaping step doubles every curly brace of the joined passage
text character by character, and in the final interpolated system prompt
every curly brace occurs only as a doubled pair, never unescaped. -/
theorem braces_escaped_in_prompt (docs : List String) :
    escape_braces (String.intercalate "\n" docs).data
        = (String.intercalate "\n" docs).data.flatMap esc_char
    ∧ braces_doubled (doc_content_of docs).data = true
    ∧ braces_doubled (format_system_prompt (doc_content_of docs)).data = true := by
  refine ⟨escape_braces_eq_flatMap _, ?_, ?_⟩
  · by_cases h : docs.isEmpty
    · rw [doc_content_of, if_pos h]
      decide
    · rw [doc_content_of, if_neg h]
      exact braces_doubled_escape _
  · have hdata : (format_system_prompt (doc_content_of docs)).data
        = system_prompt_head.data ++ ((doc_content_of docs).data ++ system_prompt_tail.data) := by
      rw [format_system_prompt, String.data_append, String.data_append, List.append_assoc]
    rw [hdata, braces_doubled_append_of_no_braces _ _ (by decide)]
    by_cases h : docs.isEmpty
    · rw [doc_content_of, if_pos h]
      rw [braces_doubled_append_of_no_braces _ _ (by decide)]
      decide
    · rw [doc_content_of, if_neg h]
      exact braces_doubled_escape_append _ _ (by decide)

/-- C3: for a conversation history whose entries carry the user or
assistant role, the message sequence assembled for the generation call
is the system instructions, then every turn of the history in original
order, then the question as the final message, and it has exactly
length of history plus 2 elements. -/
theorem prompt_message_sequence (hist : List Message) (question : String)
    (match_list : List (List (String × String)))
    (h : ∀ m ∈ hist, m.role = "user" ∨ m.role = "assistant") :
    (generate_response_call question hist match_list).prompt_messages
        = ChatMsg.system (format_system_prompt (doc_content_of (extract_doc_contents match_list)))
            :: hist.map msg_to_chat ++ [ChatMsg.human question]
    ∧ (generate_response_call question hist match_list).prompt_messages.length
        = hist.length + 2 := by
  have hr := rebuild_chat_history_eq_map hist h
  constructor
  · simp [generate_response_call, messages_of, hr]
  · simp [generate_response_call, messages_of, hr]

/-- C3 witness: the assembled sequence for a concrete question over the
initial history has its length plus 2 elements. -/
theorem prompt_message_sequence_check :
    (generate_response_call "What is aspirin?" initial_chat_history []).prompt_messages.length
      = initial_chat_history.length + 2 :=
  (prompt_message_sequence initial_chat_history "What is aspirin?" [] (by decide)).2

lemma flatMap_pair_length (turns : List (String × String)) :
    (turns.flatMap fun t => ([⟨"user", t.1⟩, ⟨"assistant", t.2⟩] : List Message)).length
      = 2 * turns.length := by
  induction turns with
  | nil => rfl
  | cons t ts ih =>
    simp only [List.flatMap_cons, List.length_append, List.length_cons, List.length_nil, ih]
    omega

lemma run_session_foldl (turns : List (String × String)) :
    ∀ h : List Message,
      turns.foldl (fun h t => (handle_user_input h t.1 (Except.ok t.2)).1) h
        = h ++ turns.flatMap fun t => [⟨"user", t.1⟩, ⟨"assistant", t.2⟩] := by
  induction turns with
  | nil => intro h; simp
  | cons t ts ih =>
    intro h
    rw [List.foldl_cons, ih, List.flatMap_cons]
    simp [handle_user_input]

/-- C4: after N successful turns the history is exactly the initial
greeting followed by the N user/assistant pairs in chronological order,
so it has 2N+1 entries; and every handler step only appends to the
history it receives. -/
theorem chat_history_after_turns (turns : List (String × String)) :
    run_session turns
        = initial_chat_history ++ turns.flatMap (fun t => [⟨"user", t.1⟩, ⟨"assistant", t.2⟩])
    ∧ (run_session turns).length = 2 * turns.length + 1
    ∧ ∀ (hist : List Message) (input : String) (g : Except String String),
        ∃ tail, (handle_user_input hist input g).1 = hist ++ tail := by
  have hrun : run_session turns
      = initial_chat_history ++ turns.flatMap (fun t => [⟨"user", t.1⟩, ⟨"assistant", t.2⟩]) :=
    run_session_foldl turns initial_chat_history
  refine ⟨hrun, ?_, ?_⟩
  · rw [hrun, List.length_append, flatMap_pair_length,
      show initial_chat_history.length = 1 from rfl]
    omega
  · intro hist input g
    cases g with
    | ok r => exact ⟨[⟨"user", input⟩, ⟨"assistant", r⟩], by simp [handle_user_input]⟩
    | error e => exact ⟨[⟨"user", input⟩], rfl⟩

/-- C6: with zero matches the doc content is the literal placeholder and
that placeholder appears verbatim inside the formatted system prompt;
with at least one match the doc content is the newline-join of the
passage texts, brace-escaped. -/
theorem placeholder_on_zero_matches (match_list : List (List (String × String))) :
    (match_list = [] →
        doc_content_of (extract_doc_contents match_list) = no_info_placeholder
        ∧ no_info_placeholder.data
            <:+: (format_system_prompt (doc_content_of (extract_doc_contents match_list))).data)
    ∧ (match_list ≠ [] →
        (doc_content_of (extract_doc_contents match_list)).data
          = escape_braces (String.intercalate "\n" (extract_doc_contents match_list)).data) := by
  constructor
  · intro hm
    subst hm
    refine ⟨rfl, ⟨system_prompt_head.data, system_prompt_tail.data, ?_⟩⟩
    have hdoc : doc_content_of (extract_doc_contents []) = no_info_placeholder := rfl
    rw [format_system_prompt, hdoc, String.data_append, String.data_append]
  · intro hm
    have hne : ¬(extract_doc_contents match_list).isEmpty := by
      rw [extract_doc_contents]
      simp only [List.isEmpty_eq_true, List.map_eq_nil_iff]
      exact hm
    rw [doc_content_of, if_neg hne]

/-- C6 witness: with zero matches the placeholder is the doc content;
with one match the doc content is the escaped newline-join. -/
theorem placeholder_on_zero_matches_check :
    doc_content_of (extract_doc_contents []) = no_info_placeholder
    ∧ (doc_content_of (extract_doc_contents [[("text", "Aspirin inhibits COX.")]])).data
        = escape_braces
            (String.intercalate "\n" (extract_doc_contents [[("text", "Aspirin inhibits COX.")]])).data :=
  ⟨((placeholder_on_zero_matches []).1 rfl).1,
   (placeholder_on_zero_matches [[("text", "Aspirin inhibits COX.")]]).2 (by simp)⟩

/-- C7: when either required key is absent from the environment, startup
halts with a visible error, and only when both keys are present does it
succeed, yielding exactly the two environment values; there is no
partial-degradation mode. -/
theorem missing_key_halts (env : String → Option String) :
    ((py_truthy (env "PINECONE_API_KEY") = false ∨ py_truthy (env "GOOGLE_API_KEY") = false) →
        ∃ msg, startup env = Except.error msg)
    ∧ (py_truthy (env "PINECONE_API_KEY") = true →
        py_truthy (env "GOOGLE_API_KEY") = true →
        startup env
          = Except.ok ((env "PINECONE_API_KEY").getD "", (env "GOOGLE_API_KEY").getD "")) := by
  constructor
  · intro h
    by_cases hp : py_truthy (env "PINECONE_API_KEY") = true
    · rcases h with h | h
      · rw [hp] at h
        exact absurd h (by decide)
      · exact ⟨"Google API key is missing. Please set it in your .env file.",
          by simp [startup, hp, h]⟩
    · have hp' : py_truthy (env "PINECONE_API_KEY") = false := by
        revert hp
        cases py_truthy (env "PINECONE_API_KEY") <;> simp
      exact ⟨"Pinecone API key is missing. Please set it in your .env file.",
        by simp [startup, hp']⟩
  · intro hp hg
    simp [startup, hp, hg]

/-- C7 witness: with an empty environment startup fails with an error,
and with both keys present it succeeds with those values. -/
theorem missing_key_halts_check :
    (∃ msg, startup (fun _ => none) = Except.error msg)
    ∧ startup (fun v => some v)
        = Except.ok ((some "PINECONE_API_KEY").getD "", (some "GOOGLE_API_KEY").getD "") := by
  constructor
  · exact (missing_key_halts (fun _ => none)).1 (Or.inl rfl)
  · exact (missing_key_halts (fun v => some v)).2 rfl rfl

/-- C8: the response-generation component leaves the whole session state
unchanged; the conversation history is updated only by the caller, to
exactly the user entry appended before the call and the assistant entry
appended after a successful return, with the rest of the state (the
dark_mode flag) untouched. -/
theorem generate_response_no_mutation (s : AppState) (question llm_text : String)
    (match_list : List (List (String × String))) :
    (generate_response_app s question match_list llm_text).1 = s
    ∧ (∀ input resp,
        (handle_user_input_app s input match_list (Except.ok resp)).1
          = { chat_history := s.chat_history ++ [⟨"user", input⟩, ⟨"assistant", resp⟩],
              dark_mode := s.dark_mode })
    ∧ (∀ input e,
        (handle_user_input_app s input match_list (Except.error e)).1
          = { chat_history := s.chat_history ++ [⟨"user", input⟩],
              dark_mode := s.dark_mode }) := by
  refine ⟨rfl, ?_, ?_⟩
  · intro input resp
    cases s
    simp [handle_user_input_app, generate_response_app]
  · intro input e
    cases s
    rfl

set_option maxRecDepth 8000 in
/-- C9: the script creates no button widget at all, hence no reset
action, although the sidebar instructions it renders document a Clear
Chat reset button: the code contradicts its own user documentation. -/
theorem no_reset_action :
    has_reset_action = false ∧ "Clear Chat".data <:+: sidebar_instructions.data := by
  refine ⟨rfl, ?_⟩
  decide

/-- C10: the handler appends the submitted question to the history
before the assembler reads it, so the assembled sequence ends with the
question twice: once as the replayed last history turn and once as the
final human message. -/
theorem question_appears_twice (hist : List Message) (q : String)
    (match_list : List (List (String × String)))
    (h : ∀ m ∈ hist, m.role = "user" ∨ m.role = "assistant") :
    handler_prompt_messages hist q match_list
      = ChatMsg.system (format_system_prompt (doc_content_of (extract_doc_contents match_list)))
          :: hist.map msg_to_chat ++ [ChatMsg.human q, ChatMsg.human q] := by
  have h2 : ∀ m ∈ hist ++ [(⟨"user", q⟩ : Message)],
      m.role = "user" ∨ m.role = "assistant" := by
    intro m hm
    rcases List.mem_append.mp hm with hm | hm
    · exact h m hm
    · rw [List.mem_singleton.mp hm]
      exact Or.inl rfl
  have hr := rebuild_chat_history_eq_map _ h2
  rw [handler_prompt_messages]
  simp [generate_response_call, messages_of, hr, msg_to_chat]

/-- C10 witness: for a concrete submission over the empty history, the
assembled sequence is the system message followed by the question twice. -/
theorem question_appears_twice_check :
    handler_prompt_messages [] "Define agonist" []
      = ChatMsg.system (format_system_prompt (doc_content_of (extract_doc_contents [])))
          :: List.map msg_to_chat []
            ++ [ChatMsg.human "Define agonist", ChatMsg.human "Define agonist"] :=
  question_appears_twice [] "Define agonist" [] (by simp)

end Tibb
